import Mathlib

/-
  Verification development for the dashrx-site quote-submission backend.

  The definitions below are a shallow embedding of the JavaScript sources:
    - server/validators.js : normalizeWeeklyScripts, isValidEmail,
      isValidPhoneUS, sanitizeText, validateQuotePayload, detectSpam
    - server/server.js     : the POST /api/quote handler pipeline
    - server/rateLimit.js  : the quote-endpoint rate limiter configuration
      (the counting algorithm itself lives in the third-party
      express-rate-limit package and is modelled from the specification).

  JavaScript strings are modelled as Lean String; a possibly-absent field
  is Option String (none = the key is absent / the value is undefined, and
  some "" is the falsy empty string).  The anchored regular expressions of
  the source are compiled by hand into deterministic matchers; each matcher
  carries a comment naming the regex it implements.
-/

namespace DashRx

/-- Characters treated as whitespace by JavaScript, both by
`String.prototype.trim()` and by the regex class `\s`: ASCII whitespace,
NBSP, BOM and the Unicode space separators. -/
def isJsWhitespace (c : Char) : Bool :=
  c = ' ' || c = Char.ofNat 9 || c = Char.ofNat 10 || c = Char.ofNat 11 ||
  c = Char.ofNat 12 || c = Char.ofNat 13 || c = Char.ofNat 0xa0 ||
  c = Char.ofNat 0x1680 ||
  (Char.ofNat 0x2000 ≤ c && c ≤ Char.ofNat 0x200a) ||
  c = Char.ofNat 0x2028 || c = Char.ofNat 0x2029 || c = Char.ofNat 0x202f ||
  c = Char.ofNat 0x205f || c = Char.ofNat 0x3000 || c = Char.ofNat 0xfeff

/-- List-level `String.prototype.trim()`. -/
def jsTrimList (l : List Char) : List Char :=
  ((l.dropWhile isJsWhitespace).reverse.dropWhile isJsWhitespace).reverse

/-- JavaScript `String.prototype.trim()`. -/
def jsTrim (s : String) : String :=
  String.mk (jsTrimList s.toList)

/-- ASCII lower-casing of a character list (used to implement the `/i`
regex flag and `String.prototype.toLowerCase()` on the ASCII inputs the
validators deal with). -/
def lowerList (l : List Char) : List Char :=
  l.map Char.toLower

/-- Truthiness of a possibly-absent JavaScript string:
`undefined` and `""` are falsy. -/
def strTruthy : Option String → Bool
  | none => false
  | some s => !(s == "")

/-- Reading a possibly-absent string field with `""` as the default. -/
def getStr : Option String → String
  | none => ""
  | some s => s

/-- JavaScript `a || b` on possibly-absent string fields. -/
def jsOr (a b : Option String) : Option String :=
  if strTruthy a then a else b

/-- Does `needle` occur at the start of the second list? -/
def isPrefixL : List Char → List Char → Bool
  | [], _ => true
  | _ :: _, [] => false
  | a :: as, b :: bs => a == b && isPrefixL as bs

/-- Does `needle` occur anywhere in the haystack
(JavaScript `String.prototype.includes`)? -/
def containsL (needle : List Char) : List Char → Bool
  | [] => needle.isEmpty
  | c :: t => isPrefixL needle (c :: t) || containsL needle t

/-- Consume an exact literal from the front of the input, returning the
rest on success. -/
def dropLit : List Char → List Char → Option (List Char)
  | [], l => some l
  | _ :: _, [] => none
  | e :: es, c :: cs => if c == e then dropLit es cs else none

/-- Consume `\s*`. -/
def dropWs (l : List Char) : List Char :=
  l.dropWhile isJsWhitespace

/-- Consume `\s+` (at least one whitespace character). -/
def dropWs1 : List Char → Option (List Char)
  | [] => none
  | c :: cs => if isJsWhitespace c then some (dropWs cs) else none

/-- An anchored matcher succeeds when the whole input was consumed. -/
def endOk : Option (List Char) → Bool
  | some l => l.isEmpty
  | none => false

/-- The replacement `v.replace(/–|—/g, '-')` from
`normalizeWeeklyScripts`: en dash and em dash become a hyphen. -/
def dashToHyphen (s : String) : String :=
  String.mk (s.toList.map
    (fun c => if c = Char.ofNat 0x2013 || c = Char.ofNat 0x2014 then '-' else c))

/-- The regex `/^less\s+than\s+25$/i` of validators.js.  The `\s+` repeats
are followed by non-whitespace literals, so maximal munch coincides with
the regex semantics. -/
def reLessThan25 (s : String) : Bool :=
  endOk (do
    let r1 ← dropLit "less".toList (lowerList s.toList)
    let r2 ← dropWs1 r1
    let r3 ← dropLit "than".toList r2
    let r4 ← dropWs1 r3
    dropLit "25".toList r4)

/-- The alternative `25\s*-\s*125` of the regex
`/^(25\s*-\s*125|25\s*to\s*125)$/i` of validators.js. -/
def re25Hyphen125 (s : String) : Bool :=
  endOk (do
    let r1 ← dropLit "25".toList (lowerList s.toList)
    let r2 ← dropLit "-".toList (dropWs r1)
    dropLit "125".toList (dropWs r2))

/-- The alternative `25\s*to\s*125` of the regex
`/^(25\s*-\s*125|25\s*to\s*125)$/i` of validators.js. -/
def re25To125 (s : String) : Bool :=
  endOk (do
    let r1 ← dropLit "25".toList (lowerList s.toList)
    let r2 ← dropLit "to".toList (dropWs r1)
    dropLit "125".toList (dropWs r2))

/-- The regex `/^more\s+than\s+125$/i` of validators.js. -/
def reMoreThan125 (s : String) : Bool :=
  endOk (do
    let r1 ← dropLit "more".toList (lowerList s.toList)
    let r2 ← dropWs1 r1
    let r3 ← dropLit "than".toList r2
    let r4 ← dropWs1 r3
    dropLit "125".toList r4)

/-- The (token, display) pair produced by the volume normalizer. -/
structure ScriptsNorm where
  token : String
  display : String
deriving DecidableEq

/-- `normalizeWeeklyScripts(val)` from validators.js lines 11-27.  The
single argument is the value of `payload.weekly_scripts ||
payload.weekly_scripts_display`; `none` stands for a missing or otherwise
falsy value (the function immediately returns the default for those). -/
def normalizeWeeklyScripts : Option String → ScriptsNorm
  | none => ⟨"lt25", "Less than 25"⟩
  | some s =>
    if s = "" then ⟨"lt25", "Less than 25"⟩
    else
      if jsTrim s = "lt25" then ⟨"lt25", "Less than 25"⟩
      else if jsTrim s = "25to125" then ⟨"25to125", "25 to 125"⟩
      else if jsTrim s = "gt125" then ⟨"gt125", "More than 125"⟩
      else
        if reLessThan25 (dashToHyphen (jsTrim s)) then ⟨"lt25", "Less than 25"⟩
        else if re25Hyphen125 (dashToHyphen (jsTrim s)) ||
                re25To125 (dashToHyphen (jsTrim s)) then ⟨"25to125", "25 to 125"⟩
        else if reMoreThan125 (dashToHyphen (jsTrim s)) then ⟨"gt125", "More than 125"⟩
        else ⟨"lt25", "Less than 25"⟩

/-- The regex character class `[2-9]`, written out as its alternatives. -/
def twoToNine (c : Char) : Bool :=
  c == '2' || c == '3' || c == '4' || c == '5' || c == '6' || c == '7' ||
  c == '8' || c == '9'

/-- The anchored regex `^[2-9]\d{2}[2-9]\d{2}\d{4}$` of `isValidPhoneUS`,
applied to a string already known to consist of digits. -/
def phonePattern10 : List Char → Bool
  | [a, b, c, d, e, f, g, h, i, j] =>
    twoToNine a && b.isDigit && c.isDigit && twoToNine d && e.isDigit &&
    f.isDigit && g.isDigit && h.isDigit && i.isDigit && j.isDigit
  | _ => false

/-- The anchored regex `^1[2-9]\d{2}[2-9]\d{2}\d{4}$` of `isValidPhoneUS`. -/
def phonePattern11 : List Char → Bool
  | c :: rest => c == '1' && phonePattern10 rest
  | [] => false

/-- JavaScript `digits.startsWith('1')`. -/
def startsWith1 : List Char → Bool
  | c :: _ => c == '1'
  | [] => false

/-- The replacement `phone.replace(/\D/g, '')` of `isValidPhoneUS`:
only the ASCII digits remain. -/
def stripNonDigits (s : String) : List Char :=
  s.toList.filter Char.isDigit

/-- `isValidPhoneUS(phone)` from validators.js lines 43-58. -/
def isValidPhoneUS : Option String → Bool
  | none => false
  | some s =>
    if s = "" then false
    else
      if (stripNonDigits s).length == 10 then phonePattern10 (stripNonDigits s)
      else if (stripNonDigits s).length == 11 && startsWith1 (stripNonDigits s) then
        phonePattern11 (stripNonDigits s)
      else false

/-- Is the character at index `i` of the digit string in `[2-9]`? -/
def nthTwoToNine (ds : List Char) (i : Nat) : Bool :=
  match ds.drop i with
  | c :: _ => twoToNine c
  | [] => false

/-- Does the three-digit code starting at index `i` have the N11 shape
(second and third digits both `1`, as in 211, 311, ..., 911)? -/
def nthN11 (ds : List Char) (i : Nat) : Bool :=
  match ds.drop i with
  | _ :: b :: c :: _ => b == '1' && c == '1'
  | _ => false

/-- Specification-side reading of the phone pattern: exactly ten digits,
with the area code (index 0) and the exchange code (index 3) each starting
with a digit from 2 to 9. -/
def specPattern10 (ds : List Char) : Bool :=
  ds.length == 10 && ds.all Char.isDigit && nthTwoToNine ds 0 && nthTwoToNine ds 3

/-- The phone predicate exactly as claim C5 words it: the ten-digit pattern
with, in addition, no N11 area or exchange code; or eleven digits led by a
`1` followed by such a pattern. -/
def specPhoneClaimC5 (s : String) : Bool :=
  (specPattern10 (stripNonDigits s) && !nthN11 (stripNonDigits s) 0 &&
    !nthN11 (stripNonDigits s) 3) ||
  ((stripNonDigits s).length == 11 && startsWith1 (stripNonDigits s) &&
    specPattern10 ((stripNonDigits s).drop 1) &&
    !nthN11 ((stripNonDigits s).drop 1) 0 && !nthN11 ((stripNonDigits s).drop 1) 3)

/-- The phone predicate with the N11 exclusion dropped — the amended form
of claim C5, stated independently of the control flow of the source. -/
def specPhoneAmendedC5 (s : String) : Bool :=
  specPattern10 (stripNonDigits s) ||
  ((stripNonDigits s).length == 11 && startsWith1 (stripNonDigits s) &&
    specPattern10 ((stripNonDigits s).drop 1))

/-- The apostrophe character of the email local-part class. -/
def apostropheChar : Char := Char.ofNat 39

/-- The backquote character of the email local-part class. -/
def backquoteChar : Char := Char.ofNat 96

/-- The left curly bracket of the email local-part class. -/
def lcurlyChar : Char := Char.ofNat 123

/-- The right curly bracket of the email local-part class. -/
def rcurlyChar : Char := Char.ofNat 125

/-- ASCII letters and digits. -/
def isAlnum (c : Char) : Bool :=
  c.isAlpha || c.isDigit

/-- The local-part character class of the email regex of validators.js. -/
def emailLocalChar (c : Char) : Bool :=
  isAlnum c ||
  c == '.' || c == '!' || c == '#' || c == '$' || c == '%' || c == '&' ||
  c == apostropheChar || c == '*' || c == '+' || c == '/' || c == '=' ||
  c == '?' || c == '^' || c == '_' || c == backquoteChar || c == lcurlyChar ||
  c == '|' || c == rcurlyChar || c == '~' || c == '-'

/-- One domain label per the email regex:
`[a-zA-Z0-9](?:[a-zA-Z0-9-]{0,61}[a-zA-Z0-9])?` — between 1 and 63
characters, alphanumeric at both ends, alphanumeric or hyphen inside. -/
def emailLabelOk (l : List Char) : Bool :=
  match l, l.reverse with
  | c :: _, d :: _ =>
    isAlnum c && isAlnum d && l.all (fun x => isAlnum x || x == '-') &&
    decide (l.length ≤ 63)
  | _, _ => false

/-- Split a character list on every occurrence of `sep`. -/
def splitOnChar (sep : Char) : List Char → List (List Char)
  | [] => [[]]
  | c :: rest =>
    if c == sep then [] :: splitOnChar sep rest
    else
      match splitOnChar sep rest with
      | h :: t => (c :: h) :: t
      | [] => [[c]]

/-- The anchored email regex of validators.js, as a whole-string test.
Neither character class admits `@`, so a match has exactly one `@`; the
local part is a nonempty run of `emailLocalChar`; the domain is labels
separated by dots. -/
def isValidEmailStr (s : String) : Bool :=
  match splitOnChar '@' s.toList with
  | [localPart, domain] =>
    !localPart.isEmpty && localPart.all emailLocalChar &&
    (splitOnChar '.' domain).all emailLabelOk
  | _ => false

/-- `isValidEmail(email)` from validators.js lines 32-37. -/
def isValidEmail : Option String → Bool
  | none => false
  | some s => if s = "" then false else isValidEmailStr s && decide (s.length ≤ 254)

/-- Left-to-right scan implementing the global replacement
`.replace(/<[^>]*>/g, '')`: on `<` start buffering; a later `>` discards
the buffered tag; reaching the end with an open buffer emits it verbatim
(the regex finds no match for an unclosed `<`). -/
def removeTagsAux : List Char → Option (List Char) → List Char
  | [], none => []
  | [], some buf => buf.reverse
  | c :: rest, none =>
    if c = '<' then removeTagsAux rest (some [c])
    else c :: removeTagsAux rest none
  | c :: rest, some buf =>
    if c = '>' then removeTagsAux rest none
    else removeTagsAux rest (some (c :: buf))

/-- Left-to-right scan implementing the global replacement
`.replace(/&[^;]+;/g, '')`: a `&` starts a buffer; a `;` discards the
buffer when at least one character stands between (the regex needs
`[^;]+`), otherwise `&;` is emitted verbatim; an unterminated buffer is
emitted at the end. -/
def removeEntitiesAux : List Char → Option (List Char) → List Char
  | [], none => []
  | [], some buf => buf.reverse
  | c :: rest, none =>
    if c = '&' then removeEntitiesAux rest (some [c])
    else c :: removeEntitiesAux rest none
  | c :: rest, some buf =>
    if c = ';' then
      if buf.length ≥ 2 then removeEntitiesAux rest none
      else buf.reverse ++ c :: removeEntitiesAux rest none
    else removeEntitiesAux rest (some (c :: buf))

/-- `sanitizeText(text)` from validators.js lines 63-70: strip tag-shaped
and entity-shaped substrings, then trim.  Absent, non-string or empty
input yields the empty string. -/
def sanitizeText : Option String → String
  | none => ""
  | some s =>
    if s = "" then ""
    else jsTrim (String.mk (removeEntitiesAux (removeTagsAux s.toList none) none))

/-- A JSON body value relevant to `submission_time`: a number or a string. -/
inductive JsVal where
  | num (n : Int)
  | str (s : String)
deriving DecidableEq

/-- The quote-form request body.  Every field the handler and the
validator read is a possibly-absent string, except `submission_time`
which may arrive as a number or a string. -/
structure Payload where
  pharmacy_name : Option String := none
  contact_person : Option String := none
  phone : Option String := none
  email : Option String := none
  address : Option String := none
  city : Option String := none
  state : Option String := none
  weekly_scripts : Option String := none
  weekly_scripts_display : Option String := none
  monthly_scripts : Option String := none
  message : Option String := none
  company_website : Option String := none
  submission_time : Option JsVal := none
deriving DecidableEq

/-- Truthiness of a `JsVal`: the number 0 and the empty string are falsy. -/
def jvTruthyV : JsVal → Bool
  | .num n => !(n == 0)
  | .str s => !(s == "")

/-- Truthiness of a possibly-absent `JsVal`. -/
def jvTruthy : Option JsVal → Bool
  | none => false
  | some v => jvTruthyV v

/-- Numeric value of an ASCII digit. -/
def digitVal (c : Char) : Nat :=
  c.toNat - 48

/-- Value of the leading run of digits, or `none` when there is none. -/
def takeDigitsVal (l : List Char) : Option Nat :=
  match l.takeWhile Char.isDigit with
  | [] => none
  | ds => some (ds.foldl (fun acc c => acc * 10 + digitVal c) 0)

/-- JavaScript `parseInt` on a trimmed character list (decimal forms,
which is what an epoch-milliseconds timestamp is): an optional sign, then
the leading digits; trailing garbage is ignored; no digits is NaN,
modelled as `none`. -/
def parseIntList : List Char → Option Int
  | '-' :: rest => (takeDigitsVal rest).map (fun n => -(n : Int))
  | '+' :: rest => (takeDigitsVal rest).map (fun n => (n : Int))
  | l => (takeDigitsVal l).map (fun n => (n : Int))

/-- `parseInt(v)` for the two body-value shapes: an integral number parses
to itself, a string is trimmed and parsed. -/
def jsParseInt : JsVal → Option Int
  | .num n => some n
  | .str s => parseIntList (jsTrimList s.toList)

/-- A one-element error list under a condition (`errors.push` guarded by
an `if`). -/
def errIf (cond : Bool) (msg : String) : List String :=
  if cond then [msg] else []

/-- The `allowedAutofillValues` array of the honeypot block of
`validateQuotePayload` (validators.js lines 155-163). -/
def allowedAutofillValues : List String :=
  ["http://", "https://", "www.", "example.com", "test.com", "localhost",
   "projectjannahyemen"]

/-- `hay.toLowerCase().includes(sub.toLowerCase())`. -/
def includesCI (hay sub : String) : Bool :=
  containsL (lowerList sub.toList) (lowerList hay.toList)

/-- Does the trimmed honeypot value contain any allow-listed autofill
substring (case-insensitively)? -/
def containsAllowedAutofill (hv : String) : Bool :=
  allowedAutofillValues.any (fun a => includesCI hv a)

/-- The `isLikelyAutofill` classification of validators.js lines 166-168:
an allow-listed substring, or fewer than ten characters. -/
def isLikelyAutofill (hv : String) : Bool :=
  containsAllowedAutofill hv || decide (hv.length < 10)

/-- The argument of the call
`normalizeWeeklyScripts(payload.weekly_scripts || payload.weekly_scripts_display)`
at validators.js line 131, and its result. -/
def scriptsNormOf (p : Payload) : ScriptsNorm :=
  normalizeWeeklyScripts (jsOr p.weekly_scripts p.weekly_scripts_display)

/-- Required-field check for the pharmacy name (validators.js 114-116). -/
def pharmacyNameErr (p : Payload) : List String :=
  errIf (!strTruthy p.pharmacy_name || sanitizeText p.pharmacy_name == "")
    "Pharmacy name is required"

/-- Required-field check for the contact person (validators.js 118-120). -/
def contactPersonErr (p : Payload) : List String :=
  errIf (!strTruthy p.contact_person || sanitizeText p.contact_person == "")
    "Contact person is required"

/-- Required-field check for the phone number (validators.js 122-124). -/
def phoneErr (p : Payload) : List String :=
  errIf (!strTruthy p.phone || !isValidPhoneUS p.phone)
    "Valid US phone number is required"

/-- Required-field check for the email address (validators.js 126-128). -/
def emailErr (p : Payload) : List String :=
  errIf (!strTruthy p.email || !isValidEmail p.email)
    "Valid email address is required"

/-- The volume check `if (!scriptsNorm.token)` (validators.js 137-139). -/
def volumeErr (p : Payload) : List String :=
  errIf ((scriptsNormOf p).token == "") "Invalid weekly delivery volume selected"

/-- The message-length check (validators.js 141-143). -/
def messageErr (p : Payload) : List String :=
  errIf (strTruthy p.message && decide ((getStr p.message).length > 2000))
    "Message must be 2000 characters or less"

/-- The honeypot block of `validateQuotePayload`
(validators.js 146-181). -/
def honeypotErr (p : Payload) : List String :=
  if strTruthy p.company_website && !(jsTrim (getStr p.company_website) == "") then
    errIf (!isLikelyAutofill (jsTrim (getStr p.company_website)))
      "Spam detection triggered"
  else []

/-- The full error list of `validateQuotePayload`, in push order. -/
def quoteErrors (p : Payload) : List String :=
  pharmacyNameErr p ++ contactPersonErr p ++ phoneErr p ++ emailErr p ++
  volumeErr p ++ messageErr p ++ honeypotErr p

/-- The sanitized record built at validators.js lines 184-196. -/
structure Sanitized where
  pharmacy_name : String
  contact_person : String
  phone : String
  email : String
  address : String
  city : String
  state : String
  weekly_scripts : String
  weekly_scripts_display : String
  message : String
  company_website : String
deriving DecidableEq

/-- Builds the sanitized record of `validateQuotePayload`. -/
def sanitizedOf (p : Payload) : Sanitized :=
  { pharmacy_name := sanitizeText p.pharmacy_name
    contact_person := sanitizeText p.contact_person
    phone := sanitizeText p.phone
    email := sanitizeText p.email
    address := sanitizeText p.address
    city := sanitizeText p.city
    state := sanitizeText p.state
    weekly_scripts := (scriptsNormOf p).token
    weekly_scripts_display := (scriptsNormOf p).display
    message := sanitizeText p.message
    company_website := sanitizeText p.company_website }

/-- The `{valid, errors, sanitized}` result of `validateQuotePayload`. -/
structure ValidationResult where
  valid : Bool
  errors : List String
  sanitized : Sanitized
deriving DecidableEq

/-- `validateQuotePayload(payload)` from validators.js lines 110-203. -/
def validateQuotePayload (p : Payload) : ValidationResult :=
  { valid := (quoteErrors p).isEmpty
    errors := quoteErrors p
    sanitized := sanitizedOf p }

/-- Split a character list on runs boundaries given by JS whitespace
(helper for counting regex link matches). -/
def splitWs : List Char → List (List Char)
  | [] => [[]]
  | c :: rest =>
    if isJsWhitespace c then [] :: splitWs rest
    else
      match splitWs rest with
      | h :: t => (c :: h) :: t
      | [] => [[c]]

/-- Does a link scheme start here with at least one non-space character
after it (`https?:\/\/` followed by a nonempty `[^\s]+`, checked at this
position)? -/
def schemeHereWithTail (l : List Char) : Bool :=
  match dropLit "http://".toList l with
  | some r => !r.isEmpty
  | none =>
    match dropLit "https://".toList l with
    | some r => !r.isEmpty
    | none => false

/-- Does a whitespace-free word contain a link match? -/
def wordHasLink : List Char → Bool
  | [] => false
  | c :: rest => schemeHereWithTail (c :: rest) || wordHasLink rest

/-- The number of matches of the global regex `/https?:\/\/[^\s]+/g` in
the message (validators.js line 212).  A match never crosses whitespace
and `[^\s]+` greedily swallows the rest of its word, so each
whitespace-delimited word holds at most one match, and it holds one
exactly when a scheme occurs in it with at least one character after. -/
def countLinks (msg : String) : Nat :=
  ((splitWs msg.toList).filter wordHasLink).length

/-- The regex word-character class `\w` (ASCII). -/
def wordCharB (c : Char) : Bool :=
  isAlnum c || c == '_'

/-- A `\b` boundary holds before the current position. -/
def boundaryOk : Option Char → Bool
  | none => true
  | some c => !wordCharB c

/-- A `\b` boundary holds after the matched keyword. -/
def afterBoundaryOk : List Char → Bool
  | [] => true
  | c :: _ => !wordCharB c

/-- Scan for a keyword occurrence flanked by `\b` boundaries, tracking
the previous character. -/
def kwScan (kw : List Char) : Option Char → List Char → Bool
  | _, [] => false
  | prev, c :: rest =>
    (boundaryOk prev &&
      (match dropLit kw (c :: rest) with
       | some r => afterBoundaryOk r
       | none => false)) || kwScan kw (some c) rest

/-- The keyword alternatives of the first suspicious pattern
`/\b(?:viagra|cialis|casino|lottery|winner|congratulations)\b/i`. -/
def spamKeywords : List String :=
  ["viagra", "cialis", "casino", "lottery", "winner", "congratulations"]

/-- Test of the first suspicious pattern on the lower-cased message. -/
def hasSpamKeyword (l : List Char) : Bool :=
  spamKeywords.any (fun k => kwScan k.toList none l)

/-- The line terminators that the regex `.` does not match. -/
def lineTerminator (c : Char) : Bool :=
  c = Char.ofNat 10 || c = Char.ofNat 13 || c = Char.ofNat 0x2028 ||
  c = Char.ofNat 0x2029

/-- After `\$\d+`, can `.*(?:million|thousand)` complete — a keyword ahead
with no line terminator before it? -/
def moneyKeywordAfter : List Char → Bool
  | [] => false
  | c :: rest =>
    isPrefixL "million".toList (c :: rest) ||
    isPrefixL "thousand".toList (c :: rest) ||
    (!lineTerminator c && moneyKeywordAfter rest)

/-- Test of the second suspicious pattern `/\$\d+.*(?:million|thousand)/i`
on the lower-cased message: a dollar sign, one digit (further digits and
any non-terminator characters are absorbed by `\d+.*`), then a keyword
reachable without crossing a line terminator. -/
def dollarAmountScan : List Char → Bool
  | [] => false
  | c :: rest =>
    (c == '$' &&
      (match rest with
       | d :: rest2 => d.isDigit && moneyKeywordAfter rest2
       | [] => false)) || dollarAmountScan rest

/-- `detectSpam(payload)` from validators.js lines 208-232, applied to the
sanitized record the server hands it: the link count, then the three
suspicious patterns in order, each pushing its indicator string. -/
def detectSpam (s : Sanitized) : List String :=
  errIf (decide (countLinks s.message > 2)) "Too many links in message" ++
  errIf (hasSpamKeyword (lowerList s.message.toList)) "Suspicious content detected" ++
  errIf (dollarAmountScan (lowerList s.message.toList)) "Suspicious content detected" ++
  errIf (containsL ("click here".toList) (lowerList s.message.toList))
    "Suspicious content detected"

/-- The distinct responses the POST /api/quote handler can produce
(server.js lines 98-217), identified by the return site. -/
inductive QuoteResponse where
  | emptyBody
  | honeypotRejected
  | validationFailed (details : List String)
  | spamRejected
  | tooFast
  | ok
  | serverError
deriving DecidableEq

/-- `Object.keys(req.body).length === 0` over the modelled fields. -/
def bodyIsEmpty (p : Payload) : Bool :=
  p.pharmacy_name.isNone && p.contact_person.isNone && p.phone.isNone &&
  p.email.isNone && p.address.isNone && p.city.isNone && p.state.isNone &&
  p.weekly_scripts.isNone && p.weekly_scripts_display.isNone &&
  p.monthly_scripts.isNone && p.message.isNone && p.company_website.isNone &&
  p.submission_time.isNone

/-- The server safety-net honeypot check of server.js lines 127-130:
`typeof req.body.company_website === 'string' &&
req.body.company_website.trim() !== ''`. -/
def honeypotSafetyNet (p : Payload) : Bool :=
  match p.company_website with
  | some s => !(jsTrim s == "")
  | none => false

/-- The back-compat copy of server.js lines 133-135: accept
`monthly_scripts` as `weekly_scripts` when the latter is falsy. -/
def backCompatScripts (p : Payload) : Payload :=
  if strTruthy p.monthly_scripts && !strTruthy p.weekly_scripts then
    { p with weekly_scripts := p.monthly_scripts }
  else p

/-- The dwell-time check of server.js lines 162-181: inside
`if (submissionTime)`, reject when `Date.now() - parseInt(submissionTime)`
is under 2000 ms.  A NaN parse makes the comparison false, so it does not
reject. -/
def timingRejects (st : Option JsVal) (now : Int) : Bool :=
  match st with
  | none => false
  | some v =>
    if jvTruthyV v then
      match jsParseInt v with
      | some t => decide (now - t < 2000)
      | none => false
    else false

/-- The POST /api/quote handler pipeline of server.js lines 98-217, after
the rate limiter: empty-body check, honeypot safety net, back-compat
field copy, payload validation, content spam detection, dwell-time check,
then the email send whose success or failure is the `emailOk` input. -/
def postApiQuote (p : Payload) (now : Int) (emailOk : Bool) : QuoteResponse :=
  if bodyIsEmpty p then .emptyBody
  else if honeypotSafetyNet p then .honeypotRejected
  else
    if !(validateQuotePayload (backCompatScripts p)).valid then
      .validationFailed (validateQuotePayload (backCompatScripts p)).errors
    else if !(detectSpam (validateQuotePayload (backCompatScripts p)).sanitized).isEmpty then
      .spamRejected
    else if timingRejects p.submission_time now then .tooFast
    else if emailOk then .ok
    else .serverError

/-- Modelled from the spec: the per-identity window state of the
express-rate-limit middleware configured in rateLimit.js — a counter and
the start of the current window, created lazily on the first request from
an identity (spec section 3, RateLimitState). -/
structure RateState where
  count : Nat
  windowStart : Int
deriving DecidableEq

/-- Modelled from the spec: one request against a fixed-window limiter
(spec section 4.5) — when the window has elapsed the counter resets and a
new window starts at the request time; every request, successful or
failed, increments the counter (rateLimit.js sets both
`skipSuccessfulRequests` and `skipFailedRequests` to false); the request
is allowed while the hit count stays within the threshold, otherwise it
is answered with 429. -/
def rateStep (windowMs : Int) (maxReq : Nat) (st : RateState) (now : Int) :
    RateState × Bool :=
  if windowMs ≤ now - st.windowStart then
    (⟨1, now⟩, decide (1 ≤ maxReq))
  else
    (⟨st.count + 1, st.windowStart⟩, decide (st.count + 1 ≤ maxReq))

/-- The quote-endpoint limiter of rateLimit.js lines 27-38:
`windowMs: 60000, max: 3`. -/
def quoteLimiterStep (st : RateState) (now : Int) : RateState × Bool :=
  rateStep 60000 3 st now

/-- Run the quote limiter over a sequence of request times from one
client identity, returning for each request whether it was allowed
(`true`) or answered with 429 (`false`). -/
def runQuote : List Int → RateState → List Bool
  | [], _ => []
  | t :: ts, st =>
    (quoteLimiterStep st t).2 :: runQuote ts (quoteLimiterStep st t).1

/-- Run the quote limiter for an identity not seen before: the state is
created at the first request. -/
def runQuoteFresh : List Int → List Bool
  | [] => []
  | t :: ts => runQuote (t :: ts) ⟨0, t⟩

/-- A fully valid quote payload whose honeypot carries the allow-listed
value `https://` (the first input of claim C1). -/
def pC1https : Payload :=
  { pharmacy_name := some "Test Pharmacy"
    contact_person := some "John Doe"
    phone := some "(313) 333-2133"
    email := some "test@testpharmacy.com"
    company_website := some "https://" }

/-- A fully valid quote payload whose honeypot carries the spam-like
value `buy-cheap-pills-now` (the second input of claim C1). -/
def pC1spam : Payload :=
  { pharmacy_name := some "Test Pharmacy"
    contact_person := some "John Doe"
    phone := some "(313) 333-2133"
    email := some "test@testpharmacy.com"
    company_website := some "buy-cheap-pills-now" }

/-- A payload supplying only a free-text volume display string
(claim C3). -/
def pC3disp : Payload :=
  { weekly_scripts_display := some "custom volume text" }

/-- A payload whose volume token is present and ignored-display test
subject (claim C3 witness). -/
def pC3tok : Payload :=
  { weekly_scripts := some "gt125" }

/-- A payload with a filled spam-like honeypot, for the claim C6
witness. -/
def pC6 : Payload :=
  { company_website := some "buy-cheap-pills-now" }

/-- An otherwise fully valid payload carrying the unrecognized volume
token `banana` (claim C9). -/
def pC9 : Payload :=
  { pharmacy_name := some "Test Pharmacy"
    contact_person := some "John Doe"
    phone := some "(313) 333-2133"
    email := some "test@testpharmacy.com"
    weekly_scripts := some "banana" }

/-- A fully valid payload whose `submission_time` is the falsy number 0
(claim C10 witness). -/
def pC10 : Payload :=
  { pharmacy_name := some "Test Pharmacy"
    contact_person := some "John Doe"
    phone := some "(313) 333-2133"
    email := some "test@testpharmacy.com"
    submission_time := some (.num 0) }

/-- Whatever its input, the normalizer lands on one of the three
canonical pairs of the deployed enumeration. -/
lemma normalizeWeeklyScripts_cases (val : Option String) :
    normalizeWeeklyScripts val = ⟨"lt25", "Less than 25"⟩ ∨
    normalizeWeeklyScripts val = ⟨"25to125", "25 to 125"⟩ ∨
    normalizeWeeklyScripts val = ⟨"gt125", "More than 125"⟩ := by
  cases val with
  | none => exact Or.inl rfl
  | some s =>
    simp only [normalizeWeeklyScripts]
    split_ifs <;> decide

/-- The normalizer never produces an empty token. -/
lemma normalizeWeeklyScripts_token_ne (val : Option String) :
    (normalizeWeeklyScripts val).token ≠ "" := by
  rcases normalizeWeeklyScripts_cases val with h | h | h <;> rw [h] <;> decide

/-- C2 (corrected claim is proved as `c2_theorem`): at the explicit input
where both the token and the display are absent, the normalizer's default
display is `Less than 25`, not `Not specified` as the claim states; the
same holds for the blank input. -/
theorem c2_counterexample :
    (normalizeWeeklyScripts none).display = "Less than 25" ∧
    (normalizeWeeklyScripts (some "   ")).display = "Less than 25" ∧
    ((normalizeWeeklyScripts none).display == "Not specified") = false := by
  decide

/-- C2 amended: when the volume value is absent or blank (trims to the
empty string), the normalizer returns the fixed default pair
`(lt25, Less than 25)` — not a `Not specified` display. -/
theorem c2_theorem :
    normalizeWeeklyScripts none = ⟨"lt25", "Less than 25"⟩ ∧
    (∀ s : String, jsTrim s = "" →
      normalizeWeeklyScripts (some s) = ⟨"lt25", "Less than 25"⟩) := by
  refine ⟨rfl, ?_⟩
  intro s h
  by_cases hs : s = ""
  · subst hs; rfl
  · simp only [normalizeWeeklyScripts, if_neg hs, h]
    decide

/-- Witness for `c2_theorem`: its blank-input half applied at the
concrete blank string. -/
theorem c2_witness :
    jsTrim "   " = "" ∧
    normalizeWeeklyScripts (some "   ") = ⟨"lt25", "Less than 25"⟩ :=
  ⟨by decide, c2_theorem.2 "   " (by decide)⟩

/-- C3 (corrected claim is proved as `c3_theorem`): at the explicit input
that supplies only the display string `custom volume text`, the sanitized
record carries the display `Less than 25` — the supplied display was not
passed through. -/
theorem c3_counterexample :
    (validateQuotePayload pC3disp).sanitized.weekly_scripts_display = "Less than 25" ∧
    ((validateQuotePayload pC3disp).sanitized.weekly_scripts_display ==
        "custom volume text") = false := by
  decide

/-- C3 amended: the call site hands the normalizer the single value
`weekly_scripts || weekly_scripts_display` and the sanitized display is
re-derived from it; in particular, when a truthy token is present the
supplied display string is ignored entirely. -/
theorem c3_theorem :
    (∀ p : Payload,
      (validateQuotePayload p).sanitized.weekly_scripts_display =
        (normalizeWeeklyScripts (jsOr p.weekly_scripts p.weekly_scripts_display)).display) ∧
    (∀ (p : Payload) (d : Option String),
      strTruthy p.weekly_scripts = true →
      (validateQuotePayload
          { p with weekly_scripts_display := d }).sanitized.weekly_scripts_display =
        (normalizeWeeklyScripts p.weekly_scripts).display) := by
  constructor
  · intro p
    rfl
  · intro p d h
    show (scriptsNormOf { p with weekly_scripts_display := d }).display = _
    rw [scriptsNormOf]
    simp [jsOr, h]

/-- Witness for `c3_theorem`: with the token `gt125` present, the display
input `ignored text` does not show up in the sanitized record. -/
theorem c3_witness :
    (validateQuotePayload
        { pC3tok with weekly_scripts_display := some "ignored text" }).sanitized.weekly_scripts_display =
      (normalizeWeeklyScripts pC3tok.weekly_scripts).display :=
  c3_theorem.2 pC3tok (some "ignored text") (by decide)

/-- C4 (corrected claim is proved as `c4_theorem`): the shorthand token
`lt50` is not rendered as `Less than 50` and the unrecognized token
`banana` is not echoed — both fall back to the fixed default pair. -/
theorem c4_counterexample :
    normalizeWeeklyScripts (some "lt50") = ⟨"lt25", "Less than 25"⟩ ∧
    ((normalizeWeeklyScripts (some "lt50")).display == "Less than 50") = false ∧
    normalizeWeeklyScripts (some "banana") = ⟨"lt25", "Less than 25"⟩ ∧
    ((normalizeWeeklyScripts (some "banana")).display == "banana") = false := by
  decide

/-- C4 amended: the normalizer resolves an exact token of the fixed
three-entry table to its canonical pair, otherwise matches the legacy
display spellings, and otherwise falls back to the default pair
`(lt25, Less than 25)` — it never hard-fails, always landing on one of
the three canonical pairs, but it has no generic `ltN`/`gtN`/`NtoM`
shorthand handling and never echoes an unrecognized token. -/
theorem c4_theorem :
    (∀ val : Option String,
      normalizeWeeklyScripts val = ⟨"lt25", "Less than 25"⟩ ∨
      normalizeWeeklyScripts val = ⟨"25to125", "25 to 125"⟩ ∨
      normalizeWeeklyScripts val = ⟨"gt125", "More than 125"⟩) ∧
    normalizeWeeklyScripts (some "lt25") = ⟨"lt25", "Less than 25"⟩ ∧
    normalizeWeeklyScripts (some "25to125") = ⟨"25to125", "25 to 125"⟩ ∧
    normalizeWeeklyScripts (some "gt125") = ⟨"gt125", "More than 125"⟩ ∧
    normalizeWeeklyScripts (some "Less than 25") = ⟨"lt25", "Less than 25"⟩ ∧
    normalizeWeeklyScripts (some "25-125") = ⟨"25to125", "25 to 125"⟩ ∧
    normalizeWeeklyScripts (some "More than 125") = ⟨"gt125", "More than 125"⟩ ∧
    normalizeWeeklyScripts (some "30to75") = ⟨"lt25", "Less than 25"⟩ ∧
    normalizeWeeklyScripts (some "gt200") = ⟨"lt25", "Less than 25"⟩ :=
  ⟨normalizeWeeklyScripts_cases, by decide, by decide, by decide, by decide,
   by decide, by decide, by decide, by decide⟩

/-- C7: every legacy and current surface encoding of each selection of
the deployed enumeration — the shorthand token, the spelled-out form in
either case, and for the middle bucket the hyphen, en-dash, em-dash,
spaced-hyphen and spelled-out `to` forms — normalizes to the same
canonical display string as its modern token. -/
theorem c7_theorem :
    (normalizeWeeklyScripts (some "Less than 25")).display =
      (normalizeWeeklyScripts (some "lt25")).display ∧
    (normalizeWeeklyScripts (some "less than 25")).display =
      (normalizeWeeklyScripts (some "lt25")).display ∧
    (normalizeWeeklyScripts (some "25-125")).display =
      (normalizeWeeklyScripts (some "25to125")).display ∧
    (normalizeWeeklyScripts (some "25–125")).display =
      (normalizeWeeklyScripts (some "25to125")).display ∧
    (normalizeWeeklyScripts (some "25—125")).display =
      (normalizeWeeklyScripts (some "25to125")).display ∧
    (normalizeWeeklyScripts (some "25 - 125")).display =
      (normalizeWeeklyScripts (some "25to125")).display ∧
    (normalizeWeeklyScripts (some "25 to 125")).display =
      (normalizeWeeklyScripts (some "25to125")).display ∧
    (normalizeWeeklyScripts (some "More than 125")).display =
      (normalizeWeeklyScripts (some "gt125")).display ∧
    (normalizeWeeklyScripts (some "more than 125")).display =
      (normalizeWeeklyScripts (some "gt125")).display := by
  decide

/-- Membership in a guarded one-element error list. -/
lemma mem_errIf_iff {x m : String} {c : Bool} :
    x ∈ errIf c m ↔ (c = true ∧ x = m) := by
  unfold errIf
  split <;> simp_all

/-- A string distinct from the message never lies in a guarded
one-element error list. -/
lemma not_mem_errIf_of_ne {x m : String} {c : Bool} (h : x ≠ m) :
    x ∉ errIf c m := by
  rw [mem_errIf_iff]
  rintro ⟨-, hx⟩
  exact h hx

/-- Membership in the full error list splits over the seven pieces in
push order. -/
lemma mem_quoteErrors_iff (x : String) (p : Payload) :
    x ∈ quoteErrors p ↔
      (x ∈ pharmacyNameErr p ∨ x ∈ contactPersonErr p ∨ x ∈ phoneErr p ∨
       x ∈ emailErr p ∨ x ∈ volumeErr p ∨ x ∈ messageErr p ∨
       x ∈ honeypotErr p) := by
  simp [quoteErrors, List.mem_append, or_assoc]

/-- The spam indicator can only come from the honeypot block. -/
lemma spam_mem_iff_honeypot (p : Payload) :
    "Spam detection triggered" ∈ quoteErrors p ↔
      "Spam detection triggered" ∈ honeypotErr p := by
  rw [mem_quoteErrors_iff]
  have h1 : "Spam detection triggered" ∉ pharmacyNameErr p :=
    not_mem_errIf_of_ne (by decide)
  have h2 : "Spam detection triggered" ∉ contactPersonErr p :=
    not_mem_errIf_of_ne (by decide)
  have h3 : "Spam detection triggered" ∉ phoneErr p :=
    not_mem_errIf_of_ne (by decide)
  have h4 : "Spam detection triggered" ∉ emailErr p :=
    not_mem_errIf_of_ne (by decide)
  have h5 : "Spam detection triggered" ∉ volumeErr p :=
    not_mem_errIf_of_ne (by decide)
  have h6 : "Spam detection triggered" ∉ messageErr p :=
    not_mem_errIf_of_ne (by decide)
  tauto

/-- C6: for a payload whose honeypot field is non-empty after trimming,
`validateQuotePayload` appends the spam-detection error exactly when the
trimmed value contains no allow-listed autofill substring and is at least
ten characters long. -/
theorem c6_theorem (p : Payload)
    (h : jsTrim (getStr p.company_website) ≠ "") :
    ("Spam detection triggered" ∈ (validateQuotePayload p).errors ↔
      (containsAllowedAutofill (jsTrim (getStr p.company_website)) = false ∧
       10 ≤ (jsTrim (getStr p.company_website)).length)) := by
  rcases hcw : p.company_website with - | s
  · rw [hcw] at h
    exact absurd rfl h
  · rw [hcw] at h
    simp only [getStr] at h
    have hs : ¬(s = "") := by
      rintro rfl
      exact h rfl
    show "Spam detection triggered" ∈ quoteErrors p ↔ _
    rw [spam_mem_iff_honeypot, honeypotErr, hcw]
    rw [if_pos (by simp [strTruthy, getStr, hs, h])]
    rw [mem_errIf_iff]
    simp only [getStr, isLikelyAutofill, Bool.not_or, Bool.and_eq_true,
      Bool.not_eq_true', decide_eq_false_iff_not, Nat.not_lt, and_true]

/-- Witness for `c6_theorem`: the spam-like honeypot value
`buy-cheap-pills-now` (19 characters, no allow-listed substring) makes
the validator append the spam-detection error. -/
theorem c6_witness :
    "Spam detection triggered" ∈ (validateQuotePayload pC6).errors :=
  (c6_theorem pC6 (by decide)).mpr (by decide)

/-- C9 (corrected claim is proved as `c9_theorem`): the otherwise valid
payload carrying the malformed volume token `banana` sails through the
validator with no error at all — the invalid-volume error is not
appended. -/
theorem c9_counterexample :
    (validateQuotePayload pC9).valid = true ∧
    (validateQuotePayload pC9).errors = [] ∧
    ((validateQuotePayload pC9).errors.contains
        "Invalid weekly delivery volume selected") = false := by
  decide

/-- C9 amended: the guard `if (!scriptsNorm.token)` is unreachable —
the normalizer always yields a non-empty token, so no payload whatsoever
is flagged with the invalid-volume error; a malformed token is silently
normalized to the default instead. -/
theorem c9_theorem :
    (∀ val : Option String, (normalizeWeeklyScripts val).token ≠ "") ∧
    (∀ p : Payload,
      "Invalid weekly delivery volume selected" ∉ (validateQuotePayload p).errors) := by
  refine ⟨normalizeWeeklyScripts_token_ne, ?_⟩
  intro p hmem
  rcases (mem_quoteErrors_iff _ p).1 hmem with h | h | h | h | h | h | h
  · exact not_mem_errIf_of_ne (by decide) h
  · exact not_mem_errIf_of_ne (by decide) h
  · exact not_mem_errIf_of_ne (by decide) h
  · exact not_mem_errIf_of_ne (by decide) h
  · rcases mem_errIf_iff.1 h with ⟨hc, -⟩
    rw [beq_iff_eq] at hc
    exact normalizeWeeklyScripts_token_ne _ hc
  · exact not_mem_errIf_of_ne (by decide) h
  · rw [honeypotErr] at h
    revert h
    split
    · exact not_mem_errIf_of_ne (by decide)
    · simp

/-- Witness for `c9_theorem`: its second half applied at the concrete
payload with the malformed token. -/
theorem c9_witness :
    "Invalid weekly delivery volume selected" ∉ (validateQuotePayload pC9).errors :=
  c9_theorem.2 pC9

/-- A falsy `submission_time` makes the dwell-time check a no-op. -/
lemma timingRejects_of_falsy (st : Option JsVal) (now : Int)
    (h : jvTruthy st = false) : timingRejects st now = false := by
  cases st with
  | none => rfl
  | some v =>
    simp only [jvTruthy] at h
    simp [timingRejects, h]

/-- C1 (corrected claim is proved as `c1_theorem`): the fully valid
submission whose honeypot carries the allow-listed value `https://` is
not treated as valid by POST /api/quote — the server safety net answers
it with the 400 `Submission rejected` response before validation runs. -/
theorem c1_counterexample :
    postApiQuote pC1https 0 true = QuoteResponse.honeypotRejected ∧
    (postApiQuote pC1https 0 true == QuoteResponse.ok) = false := by
  decide

/-- C1 amended: the handler's safety net rejects every submission whose
honeypot is a non-empty string after trimming, before the validator is
consulted — so both `https://` and `buy-cheap-pills-now` receive the 400
`Submission rejected` response.  Only inside `validateQuotePayload` does
the claimed asymmetry hold: `https://` produces no error at all, while
`buy-cheap-pills-now` appends the spam-detection error. -/
theorem c1_theorem :
    (∀ (p : Payload) (now : Int) (emailOk : Bool),
      honeypotSafetyNet p = true →
      postApiQuote p now emailOk = QuoteResponse.honeypotRejected) ∧
    (validateQuotePayload pC1https).errors = [] ∧
    "Spam detection triggered" ∈ (validateQuotePayload pC1spam).errors := by
  refine ⟨?_, by decide, by decide⟩
  intro p now emailOk h
  have hb : bodyIsEmpty p = false := by
    rcases hc : p.company_website with - | s
    · rw [honeypotSafetyNet, hc] at h
      exact absurd h (by decide)
    · simp [bodyIsEmpty, hc]
  simp [postApiQuote, hb, h]

/-- Witness for `c1_theorem`: its safety-net half applied at the concrete
payload with the spam-like honeypot value. -/
theorem c1_witness :
    postApiQuote pC1spam 0 true = QuoteResponse.honeypotRejected :=
  c1_theorem.1 pC1spam 0 true (by decide)

/-- C10: when `submission_time` is absent or falsy (the number 0 or the
empty string), the dwell-time check is skipped entirely — the handler
never answers with the too-fast rejection, whatever the clock reads. -/
theorem c10_theorem (p : Payload) (now : Int) (emailOk : Bool)
    (h : jvTruthy p.submission_time = false) :
    postApiQuote p now emailOk ≠ QuoteResponse.tooFast := by
  have ht := timingRejects_of_falsy p.submission_time now h
  rw [postApiQuote]
  split_ifs <;> simp_all

/-- Witness for `c10_theorem`: the fully valid payload whose
`submission_time` is the falsy number 0 is never rejected as too fast. -/
theorem c10_witness :
    postApiQuote pC10 0 true ≠ QuoteResponse.tooFast :=
  c10_theorem pC10 0 true (by decide)

/-- C8: six requests from one fresh client identity, all inside a single
60-second window of the quote limiter (maximum 3), are answered
`allowed, allowed, allowed, 429, 429, 429` — the 4th through 6th are the
blocked ones, never the first three.  Every request counts, whether the
submission later succeeds or fails, since the limiter runs before the
handler and skips nothing. -/
theorem c8_theorem (t1 t2 t3 t4 t5 t6 : Int)
    (_h12 : t1 ≤ t2) (h23 : t2 ≤ t3) (h34 : t3 ≤ t4) (h45 : t4 ≤ t5)
    (h56 : t5 ≤ t6) (hw : t6 < t1 + 60000) :
    runQuoteFresh [t1, t2, t3, t4, t5, t6] =
      [true, true, true, false, false, false] := by
  have k1 : ¬((60000 : Int) ≤ t1 - t1) := by omega
  have k2 : ¬((60000 : Int) ≤ t2 - t1) := by omega
  have k3 : ¬((60000 : Int) ≤ t3 - t1) := by omega
  have k4 : ¬((60000 : Int) ≤ t4 - t1) := by omega
  have k5 : ¬((60000 : Int) ≤ t5 - t1) := by omega
  have k6 : ¬((60000 : Int) ≤ t6 - t1) := by omega
  simp [runQuoteFresh, runQuote, quoteLimiterStep, rateStep, k1, k2, k3, k4,
    k5, k6]

/-- Witness for `c8_theorem`: six requests at concrete times 0..5
milliseconds. -/
theorem c8_witness :
    runQuoteFresh [0, 1, 2, 3, 4, 5] = [true, true, true, false, false, false] :=
  c8_theorem 0 1 2 3 4 5 (by decide) (by decide) (by decide) (by decide)
    (by decide) (by decide)

/-- A digit from 2 to 9 is a digit. -/
lemma twoToNine_isDigit {c : Char} (h : twoToNine c = true) : c.isDigit = true := by
  simp only [twoToNine, Bool.or_eq_true, beq_iff_eq] at h
  casesm* _ ∨ _ <;> subst_vars <;> decide

/-- The ten-digit regex of the source coincides, on every character list,
with the positional reading of the claim: length ten, all digits, and the
characters at indexes 0 and 3 in the 2-9 range. -/
lemma phonePattern10_eq_spec (l : List Char) :
    phonePattern10 l = specPattern10 l := by
  rcases l with - | ⟨a, - | ⟨b, - | ⟨c, - | ⟨d, - | ⟨e, - | ⟨f, - | ⟨g, - |
    ⟨h2, - | ⟨i, - | ⟨j, - | ⟨k, t⟩⟩⟩⟩⟩⟩⟩⟩⟩⟩⟩
  case nil => rfl
  case cons.nil => rfl
  case cons.cons.nil => rfl
  case cons.cons.cons.nil => rfl
  case cons.cons.cons.cons.nil => rfl
  case cons.cons.cons.cons.cons.nil => rfl
  case cons.cons.cons.cons.cons.cons.nil => rfl
  case cons.cons.cons.cons.cons.cons.cons.nil => rfl
  case cons.cons.cons.cons.cons.cons.cons.cons.nil => rfl
  case cons.cons.cons.cons.cons.cons.cons.cons.cons.nil => rfl
  case cons.cons.cons.cons.cons.cons.cons.cons.cons.cons.nil =>
    rw [Bool.eq_iff_iff]
    simp only [phonePattern10, specPattern10, nthTwoToNine, List.drop,
      List.all_cons, List.all_nil, List.length_cons, List.length_nil,
      Bool.and_true, Bool.and_eq_true]
    constructor
    · intro hh
      have ha : twoToNine a = true := by tauto
      have hd : twoToNine d = true := by tauto
      have da := twoToNine_isDigit ha
      have dd := twoToNine_isDigit hd
      simp_all
    · intro hh
      simp_all
  case cons.cons.cons.cons.cons.cons.cons.cons.cons.cons.cons =>
    have hlen :
        ((a :: b :: c :: d :: e :: f :: g :: h2 :: i :: j :: k :: t).length
          == 10) = false := by
      simp
    rw [specPattern10, hlen, Bool.false_and]
    rfl

/-- The source phone validator agrees with the amended claim predicate on
every string. -/
lemma isValidPhoneUS_eq_spec (s : String) :
    isValidPhoneUS (some s) = specPhoneAmendedC5 s := by
  by_cases hs : s = ""
  · subst hs; rfl
  · simp only [isValidPhoneUS, if_neg hs, specPhoneAmendedC5]
    by_cases h10 : (stripNonDigits s).length = 10
    · have h10b : ((stripNonDigits s).length == 10) = true := by
        simp [h10]
      have h11b : ((stripNonDigits s).length == 11) = false := by
        simp [h10]
      rw [if_pos h10b, h11b, Bool.false_and, Bool.false_and, Bool.or_false,
        phonePattern10_eq_spec]
    · have h10b : ((stripNonDigits s).length == 10) = false := by
        simp [h10]
      have hnot10 : (specPattern10 (stripNonDigits s)) = false := by
        simp [specPattern10, h10b]
      rw [if_neg (by simp [h10b]), hnot10, Bool.false_or]
      by_cases h11 : (stripNonDigits s).length = 11
      · rcases hd : stripNonDigits s with - | ⟨c, rest⟩
        · simp
        · have hr : rest.length = 10 := by
            rw [hd] at h11
            simp [List.length_cons] at h11
            omega
          have h11b : ((c :: rest).length == 11) = true := by
            simp [hr]
          by_cases hc : c = '1'
          · simp [h11b, startsWith1, hc, phonePattern11,
              phonePattern10_eq_spec, hr]
          · simp [startsWith1, hc]
      · have h11b : ((stripNonDigits s).length == 11) = false := by
          simp [h11]
        simp [h11b]

/-- C5 (corrected claim is proved as `c5_theorem`): at the explicit input
`9113332133` — whose area code 911 is an N11 code — the source validator
answers true while the claim's predicate, which excludes N11 area and
exchange codes, answers false, so the claimed equivalence fails. -/
theorem c5_counterexample :
    isValidPhoneUS (some "9113332133") = true ∧
    specPhoneClaimC5 "9113332133" = false := by
  decide

/-- C5 amended: `isValidPhoneUS` returns true exactly when the digits
left after stripping non-digits are ten matching `[2-9]XX[2-9]XXXXXX`
(only area or exchange codes starting with 0 or 1 are excluded — N11
codes are accepted), or eleven led by a `1` followed by such a pattern;
it rejects the 10-digit strings whose area or exchange code starts with 0
or 1 and accepts the four formatted variants. -/
theorem c5_theorem :
    (∀ s : String, isValidPhoneUS (some s) = specPhoneAmendedC5 s) ∧
    isValidPhoneUS (some "(313) 333-2133") = true ∧
    isValidPhoneUS (some "313-333-2133") = true ∧
    isValidPhoneUS (some "3133332133") = true ∧
    isValidPhoneUS (some "+13133332133") = true ∧
    isValidPhoneUS (some "0133332133") = false ∧
    isValidPhoneUS (some "1133332133") = false ∧
    isValidPhoneUS (some "3130332133") = false ∧
    isValidPhoneUS (some "3131332133") = false :=
  ⟨isValidPhoneUS_eq_spec, by decide, by decide, by decide, by decide,
   by decide, by decide, by decide, by decide⟩

end DashRx
